import Mathlib

/-!
# PlayNetwork server core: shallow embedding

This file embeds the message-routing core of the PlayNetwork server
(`PlayNetwork` class: `_onMessage`, `generateId`, the per-message reply
callback, the `_authenticate` socket handler, `_validateSettings`) and the
`Players` registry, and proves properties of the embedding.

Modelling conventions:
* JSON payloads are `JVal`; machine integers are `Nat` (ids are produced by a
  counter and are never negative).
* Redis is a pure state: string-keyed counters (for `INCR`) and hash maps
  keyed by `(hashKey, field)` (for `HSET`/`HGET`).  Hash fields are stored as
  the `Nat` they print as (`id.toString()` on write, `parseInt` on read).
* The side effects of a dispatched message are recorded as an ordered
  `List Effect`; invoking a handler, consulting redis and forwarding over the
  inter-process link each leave one entry.  JavaScript truthiness of the wire
  field `msg.id` (the correlation id) is modelled explicitly: `0` is falsy.
-/

namespace PlayNetwork

/-- JSON-like payload values carried in `data` fields. -/
inductive JVal where
  | jnull
  | jnum (n : Nat)
  | jstr (s : String)
  | jbool (b : Bool)
deriving DecidableEq, Repr

/-- A message scope: `msg.scope = {type, id}`. -/
structure Scope where
  type : String
  id : Nat
deriving DecidableEq, Repr

/-- An incoming wire message `{name, scope?, data, id?}`.  The wire field `id`
is the correlation id; `some 0` models a present-but-JS-falsy value. -/
structure Msg where
  name : String
  scope : Option Scope
  data : JVal
  id : Option Nat
deriving DecidableEq, Repr

/-- JavaScript truthiness of `e.msg.id`: absent and `0` are falsy. -/
def idTruthy : Option Nat → Bool
  | none => false
  | some n => n != 0

/-- The `data` field of a response envelope: `err ? { err: err.message } : data`. -/
inductive EnvData where
  | errData (msg : String)
  | plain (d : JVal)
deriving DecidableEq, Repr

/-- A response envelope `{name, data, id}` sent on the originating connection. -/
structure Envelope where
  name : String
  data : EnvData
  id : Option Nat
deriving DecidableEq, Repr

/-- The per-message reply callback closure of the socket `message` listener:
`(err, data) => { if (err || e.msg.id) socket.send(JSON.stringify({ name:
e.msg.name, data: err ? { err: err.message } : data, id: e.msg.id })); }`.
Returns the envelope sent, if any. -/
def callbackSend (name : String) (msgId : Option Nat) (err : Option String)
    (data : JVal) : Option Envelope :=
  if err.isSome || idTruthy msgId then
    some { name := name
           data := match err with
                   | some e => .errData e
                   | none => .plain data
           id := msgId }
  else
    none

/-- The redis coordination store: `INCR` counters and `HSET`/`HGET` hashes. -/
structure RedisState where
  counters : List (String × Nat)
  routes : List (String × Nat × Nat)
deriving DecidableEq, Repr

/-- Current value of a counter key (redis counters start at 0). -/
def countersGet (r : RedisState) (k : String) : Nat :=
  match r.counters.find? (fun p => p.1 == k) with
  | some p => p.2
  | none => 0

/-- Source `redis.INCR(k)`: atomically increment the counter and return its new
value.  The store applies the increment as one primitive. -/
def redisINCR (r : RedisState) (k : String) : Nat × RedisState :=
  let n := countersGet r k + 1
  (n, { r with counters := (k, n) :: r.counters.filter (fun p => p.1 != k) })

/-- Source `redis.HSET(key, field, value)`: upsert one hash field. -/
def hset (r : RedisState) (k : String) (f : Nat) (v : Nat) : RedisState :=
  { r with routes := (k, f, v) :: r.routes.filter (fun t => !(t.1 == k && t.2.1 == f)) }

/-- Source `redis.HGET(key, field)`: read one hash field, `none` when absent. -/
def hget (r : RedisState) (k : String) (f : Nat) : Option Nat :=
  (r.routes.find? (fun t => t.1 == k && t.2.1 == f)).map (fun t => t.2.2)

/-- Source `generateId(type)` (lines 231-239): `INCR('_id:' + type)`, then —
for every type except `'server'` — `HSET('_route:' + type, id, this.id)`,
and only then return the id.  Returns the id and the store state at return
time. -/
def generateId (r : RedisState) (selfId : Nat) (type : String) : Nat × RedisState :=
  let p := redisINCR r ("_id:" ++ type)
  if type != "server" then
    (p.1, hset p.2 ("_route:" ++ type) p.1 selfId)
  else
    p

/-- The per-process server state visible to `_onMessage`: the process id, the
set of message names with a registered handler on the process-wide event
surface (`hasEvent`), the local registries (`this.users`, `this.rooms`,
`this.networkEntities`, as sets of resident ids) and the redis connection. -/
structure PNState where
  selfId : Nat
  events : List String
  users : List Nat
  rooms : List Nat
  networkEntities : List Nat
  redis : RedisState
deriving DecidableEq, Repr

/-- Source `this._reservedEvents = ['destroy']` (constructor, line 117). -/
def reservedEvents : List String := ["destroy"]

/-- A locally resolved dispatch target. -/
inductive Target where
  | selfProcess
  | user (id : Nat)
  | room (id : Nat)
  | networkEntity (id : Nat)
deriving DecidableEq, Repr

/-- One observable side effect of dispatching a message. -/
inductive Effect where
  | callbackErr (msg : String)
  | fireGlobal (name : String) (sender : Option Nat) (data : JVal)
  | fireTarget (t : Target) (name : String) (sender : Option Nat) (data : JVal)
  | redisHGET (key : String) (field : Nat)
  | serverSend (name : String) (m : Msg) (dest : Nat) (origin : Nat)
deriving DecidableEq, Repr

/-- Source `parseInt(await this.redis.HGET(key, id.toString()))` followed by the
`if (!serverId)` test: an absent field parses to `NaN` and the value `0` is
falsy, so both count as "no owner"; any other stored value is the owner. -/
def routeOwner (r : RedisState) (key : String) (f : Nat) : Option Nat :=
  match hget r key f with
  | some v => if v != 0 then some v else none
  | none => none

/-- A handle returned by the `Users` collection: either a user resident in
this process, or a proxy for a user owned by another process. -/
inductive UserHandle where
  | localUser (id : Nat)
  | remoteUser (id : Nat) (owner : Nat)
deriving DecidableEq, Repr

/-- Modelled from the spec: `this.users.get(id)` — the `Users` class
(`src/core/users.js`) is not in the source tree; `_onMessage` awaits it at
line 270.  Per spec §4.2 ("Lookups are always attempted locally first … and
only fall through to the shared store when the entity is not resident in this
process") and §8 ("addressed to a user resident elsewhere, it is forwarded
exactly once"): the lookup tries the local registry first, then the routing
table, and a remote hit yields a proxy whose `fire` forwards over the
inter-process link. -/
def usersGet (st : PNState) (id : Nat) : Option UserHandle :=
  if st.users.contains id then
    some (.localUser id)
  else
    match routeOwner st.redis "_route:user" id with
    | some owner => some (.remoteUser id owner)
    | none => none

/-- Source `_onMessage(msg, user, callback)` (lines 255-291), as the ordered
list of effects it performs:
1. a reserved name fails through the callback and nothing else happens;
2. a name with a registered global handler fires it and returns;
3. otherwise the switch on `msg.scope?.type` resolves a target: `server` is
   the process itself; `user` goes through `this.users.get`; `room` /
   `networkEntity` try the local registry and, on a miss, `HGET` the routing
   table — forwarding `('_message', msg, serverId, this.id)` when an owner is
   found and silently returning when not; an absent or unknown scope type
   leaves the target `null`, and `target?.fire(...)` fires only a resolved
   local target. -/
def onMessage (st : PNState) (m : Msg) (user : Option Nat) : List Effect :=
  if reservedEvents.contains m.name then
    [.callbackErr ("Event " ++ m.name ++ " is reserved")]
  else if st.events.contains m.name then
    [.fireGlobal m.name user m.data]
  else
    match m.scope with
    | none => []
    | some sc =>
      if sc.type = "server" then
        [.fireTarget .selfProcess m.name user m.data]
      else if sc.type = "user" then
        match usersGet st sc.id with
        | some (.localUser i) => [.fireTarget (.user i) m.name user m.data]
        | some (.remoteUser _ owner) => [.serverSend "_message" m owner st.selfId]
        | none => []
      else if sc.type = "room" then
        if st.rooms.contains sc.id then
          [.fireTarget (.room sc.id) m.name user m.data]
        else
          .redisHGET "_route:room" sc.id ::
            (match routeOwner st.redis "_route:room" sc.id with
             | some owner => [.serverSend "_message" m owner st.selfId]
             | none => [])
      else if sc.type = "networkEntity" then
        if st.networkEntities.contains sc.id then
          [.fireTarget (.networkEntity sc.id) m.name user m.data]
        else
          .redisHGET "_route:networkEntity" sc.id ::
            (match routeOwner st.redis "_route:networkEntity" sc.id with
             | some owner => [.serverSend "_message" m owner st.selfId]
             | none => [])
      else
        []

/-- What a fired handler does with `(sender, data, callback)`: either it
raises an exception, or it runs to completion and invokes the callback with
an error or a result. -/
inductive HandlerBehavior where
  | throws (err : String)
  | replies (err : Option String) (data : JVal)
deriving DecidableEq, Repr

/-- The externally visible outcome of processing one message: envelopes sent
on the originating connection, errors logged, `'error'` events fired on the
`PlayNetwork` instance, and whether the process terminated. -/
structure DeliveryResult where
  sent : List Envelope
  logged : List String
  errorEvents : List String
  terminated : Bool
deriving DecidableEq, Repr

/-- Interpret one dispatch effect.  A `callbackErr` reaches the reply
callback closure directly.  A fired handler behaves as `h`; `_onMessage`
wraps no try/catch around `fire`, so a throwing handler's exception escapes
the `async` socket `message` listener as a rejected promise and lands in
`process.on('uncaughtException'/'unhandledRejection')` (constructor lines
119-130), which logs it and fires an `'error'` event — and does not
terminate the process, and sends nothing on the connection. -/
def runEffect (m : Msg) (h : HandlerBehavior) (acc : DeliveryResult) :
    Effect → DeliveryResult
  | .callbackErr e =>
      { acc with sent := acc.sent ++ (callbackSend m.name m.id (some e) .jnull).toList }
  | .fireGlobal _ _ _ =>
      match h with
      | .throws e =>
          { acc with logged := acc.logged ++ [e], errorEvents := acc.errorEvents ++ [e] }
      | .replies err d =>
          { acc with sent := acc.sent ++ (callbackSend m.name m.id err d).toList }
  | .fireTarget _ _ _ _ =>
      match h with
      | .throws e =>
          { acc with logged := acc.logged ++ [e], errorEvents := acc.errorEvents ++ [e] }
      | .replies err d =>
          { acc with sent := acc.sent ++ (callbackSend m.name m.id err d).toList }
  | .redisHGET _ _ => acc
  | .serverSend _ _ _ _ => acc

/-- Process one non-`_authenticate` message end to end: dispatch it and
interpret the resulting effects with handler behavior `h`. -/
def deliver (st : PNState) (m : Msg) (user : Option Nat) (h : HandlerBehavior) :
    DeliveryResult :=
  (onMessage st m user).foldl (runEffect m h) ⟨[], [], [], false⟩

/-- A connection session: the `user` variable captured by the socket
listeners (the bound user id once authenticated) and the server state. -/
structure Session where
  user : Option Nat
  st : PNState
deriving Repr

/-- Source `connectUser(id)` inside the `_authenticate` socket handler (lines
201-206): bind a new `User` to the session, add it to `this.users`, and
invoke `callback(null, user.id)` — which sends a success envelope only when
the wire `id` of the `_authenticate` message is truthy. -/
def connectUser (s : Session) (authMsgId : Option Nat) (id : Nat) :
    Session × Option Envelope :=
  ({ user := some id, st := { s.st with users := id :: s.st.users } },
   callbackSend "_authenticate" authMsgId none (.jnum id))

/-- The `_authenticate` socket handler (lines 200-221).  The `message`
listener routes every message named `_authenticate` here unconditionally
(line 188), whatever the session's state.  With no `authenticate` policy
registered, a fresh user id is generated and `connectUser` runs; with a
policy, its callback either fails the message and closes the socket, or
runs `connectUser` with the policy-supplied id.  Returns the new session,
the envelope sent (if any), and whether the socket was closed. -/
def onAuthenticate (s : Session) (authMsgId : Option Nat) (payload : JVal)
    (policy : JVal → Except String Nat) : Session × Option Envelope × Bool :=
  if !(s.st.events.contains "authenticate") then
    let p := generateId s.st.redis s.st.selfId "user"
    let s1 : Session := { s with st := { s.st with redis := p.2 } }
    let r := connectUser s1 authMsgId p.1
    (r.1, r.2, false)
  else
    match policy payload with
    | .error e => (s, callbackSend "_authenticate" authMsgId (some e) .jnull, true)
    | .ok uid =>
        let r := connectUser s authMsgId uid
        (r.1, r.2, false)

/-- The `start(settings)` argument.  Each field is `none` when absent; the
`server` field is `some b` when a value is present, with `b` recording
whether it is an `http.Server`/`https.Server` instance. -/
structure Settings where
  redisUrl : Option String
  scriptsPath : Option String
  templatesPath : Option String
  levelProvider : Option Unit
  server : Option Bool
deriving Repr

/-- JavaScript falsiness of an optional string setting (`!settings.x`):
absent or empty. -/
def strFalsy : Option String → Bool
  | none => true
  | some s => s == ""

/-- Source `!settings.server || (!(settings.server instanceof http.Server) &&
!(settings.server instanceof https.Server))`. -/
def serverInvalid : Option Bool → Bool
  | none => true
  | some isHttpServer => !isHttpServer

/-- Source `_validateSettings(settings)` (lines 293-313): accumulate one message per
missing setting, in source order.  The source concatenates these into the
thrown error string; the list form records exactly which messages the error
names. -/
def validateSettings (s : Settings) : List String :=
  (if strFalsy s.redisUrl then ["settings.redisUrl is required\n"] else []) ++
  (if strFalsy s.scriptsPath then ["settings.scriptsPath is required\n"] else []) ++
  (if strFalsy s.templatesPath then ["settings.templatesPath is required\n"] else []) ++
  (if s.levelProvider.isNone then ["settings.levelProvider is required\n"] else []) ++
  (if serverInvalid s.server then ["settings.server is required\n"] else [])

/-- Network-touching steps of `start` (abridged, in source order): the redis
client connects (line 149) and the `upgrade` listener is attached to the
transport server (line 166). -/
inductive StartEffect where
  | redisConnect (url : String)
  | attachUpgradeListener
deriving DecidableEq, Repr

/-- Source `start(settings)` (lines 144-229) up to its network effects:
`_validateSettings` runs first and throws synchronously (the `Option String`
component) when any setting is missing; only after it passes does `start`
connect to redis and attach the transport listener. -/
def start (s : Settings) : Option String × List StartEffect :=
  let errs := validateSettings s
  if errs.isEmpty then
    (none, [.redisConnect ((s.redisUrl).getD ""), .attachUpgradeListener])
  else
    (some (String.join errs), [])

/-- A player record: its id and the ids of its user and room
(`player.id`, `player.user.id`, `player.room.id`). -/
structure Player where
  id : Nat
  userId : Nat
  roomId : Nat
deriving DecidableEq, Repr

/-- JavaScript `Map.set` on an association list. -/
def mapSet (l : List (Nat × Player)) (k : Nat) (v : Player) : List (Nat × Player) :=
  (k, v) :: l.filter (fun p => p.1 != k)

/-- JavaScript `Map.delete` on an association list. -/
def mapDelete (l : List (Nat × Player)) (k : Nat) : List (Nat × Player) :=
  l.filter (fun p => p.1 != k)

/-- JavaScript `Map.get` on an association list. -/
def mapGet (l : List (Nat × Player)) (k : Nat) : Option Player :=
  (l.find? (fun p => p.1 == k)).map (fun p => p.2)

/-- The `Players` registry (`src/core/players/players.js`): the `Map` the
class extends, plus its `playersByUser` and `playersByRoom` indexes. -/
structure Players where
  byId : List (Nat × Player)
  playersByUser : List (Nat × Player)
  playersByRoom : List (Nat × Player)
deriving DecidableEq, Repr

/-- Source `Players.add(player)` (lines 5-17): set the player in all three indexes
and return it.  (It also registers the `destroy` handler modelled by
`Players.fireDestroy`.) -/
def Players.add (ps : Players) (p : Player) : Players × Player :=
  ({ byId := mapSet ps.byId p.id p
     playersByUser := mapSet ps.playersByUser p.userId p
     playersByRoom := mapSet ps.playersByRoom p.roomId p }, p)

/-- The handler `add` registers on the player's `destroy` event (lines
10-14): delete the player's keys from all three indexes. -/
def Players.fireDestroy (ps : Players) (p : Player) : Players :=
  { byId := mapDelete ps.byId p.id
    playersByUser := mapDelete ps.playersByUser p.userId
    playersByRoom := mapDelete ps.playersByRoom p.roomId }

/-- JavaScript `Map.prototype.get` on the extended map. -/
def Players.get (ps : Players) (id : Nat) : Option Player :=
  mapGet ps.byId id

/-- Source `Players.getByUserId` (lines 19-21). -/
def Players.getByUserId (ps : Players) (userId : Nat) : Option Player :=
  mapGet ps.playersByUser userId

/-- Source `Players.getByRoomId` (lines 23-25). -/
def Players.getByRoomId (ps : Players) (roomId : Nat) : Option Player :=
  mapGet ps.playersByRoom roomId

/-- A process (id 9) with no registered global handlers, empty local
registries, and a routing table entry sending room 5 to process 2. -/
def stFwd : PNState :=
  { selfId := 9
    events := []
    users := []
    rooms := []
    networkEntities := []
    redis := { counters := [("_id:user", 1)], routes := [("_route:room", 5, 2)] } }

/-- A room-scoped message addressed to room 5. -/
def msgRoom5 : Msg :=
  { name := "fire", scope := some ⟨"room", 5⟩, data := .jnull, id := none }

/-- A process like `stFwd` but with a global handler registered for `chat`. -/
def stGlobal : PNState := { stFwd with events := ["chat"] }

/-- A `chat` message carrying correlation id 7. -/
def msgChat : Msg :=
  { name := "chat", scope := some ⟨"room", 5⟩, data := .jstr "x", id := some 7 }

/-- A message with the reserved name `destroy`. -/
def msgDestroy : Msg :=
  { name := "destroy", scope := none, data := .jnull, id := some 2 }

/-- A process with user 4 resident locally and user 8 routed to process 3. -/
def stUser : PNState :=
  { selfId := 9
    events := []
    users := [4]
    rooms := []
    networkEntities := []
    redis := { counters := [], routes := [("_route:user", 8, 3)] } }

/-- A user-scoped message addressed to the non-resident user 8. -/
def msgUser8 : Msg :=
  { name := "fire", scope := some ⟨"user", 8⟩, data := .jnull, id := none }

/-- A session that already authenticated as user 1 (user 1 is bound and in
the local registry; the user-id counter stands at 1). -/
def sessAuthed : Session :=
  { user := some 1
    st :=
      { selfId := 9
        events := []
        users := [1]
        rooms := []
        networkEntities := []
        redis := { counters := [("_id:user", 1)], routes := [("_route:user", 1, 9)] } } }

/-- A stand-in authentication policy; never consulted when no `authenticate`
handler is registered. -/
def policyUnused : JVal → Except String Nat := fun _ => .error "unused"

/-- A `start` call with every required setting absent. -/
def settingsEmpty : Settings :=
  { redisUrl := none, scriptsPath := none, templatesPath := none
    levelProvider := none, server := none }

/-- Looking a key up right after `Map.set` of that key returns the set value. -/
theorem mapGet_set (l : List (Nat × Player)) (k : Nat) (v : Player) :
    mapGet (mapSet l k v) k = some v := by
  simp [mapGet, mapSet]

/-- Looking a key up right after `Map.delete` of that key returns nothing. -/
theorem mapGet_delete (l : List (Nat × Player)) (k : Nat) :
    mapGet (mapDelete l k) k = none := by
  unfold mapGet mapDelete
  rw [Option.map_eq_none', List.find?_eq_none]
  intro x hx
  have h := (List.mem_filter.mp hx).2
  simp only [bne_iff_ne, ne_eq] at h
  simp [h]

/-- Claim C2: for every entity-kind other than `server`, `generateId` performs
the atomic increment on the store and writes a routing entry mapping the new
id to the allocating process before the id is returned (the returned store
state already holds the entry); for kind `server` no routing entry is
written.  Hence no id this allocator returns for a non-server kind exists
without a routing entry naming its owner. -/
theorem generateId_routes (r : RedisState) (selfId : Nat) (kind : String) :
    (generateId r selfId kind).1 = countersGet r ("_id:" ++ kind) + 1 ∧
    countersGet (generateId r selfId kind).2 ("_id:" ++ kind) = (generateId r selfId kind).1 ∧
    (kind ≠ "server" →
      hget (generateId r selfId kind).2 ("_route:" ++ kind) (generateId r selfId kind).1
        = some selfId) ∧
    (kind = "server" → ((generateId r selfId kind).2).routes = r.routes) := by
  by_cases hk : kind = "server"
  · subst hk
    simp [generateId, redisINCR, countersGet]
  · simp [generateId, redisINCR, hk, hset, hget, countersGet]

/-- Claim C2, witnessed: allocating a `room` id on an empty store from
process 3 returns id `counter + 1` and the returned store routes it to
process 3. -/
theorem generateId_routes_witness :
    hget (generateId { counters := [], routes := [] } 3 "room").2 ("_route:" ++ "room")
      (generateId { counters := [], routes := [] } 3 "room").1 = some 3 :=
  (generateId_routes { counters := [], routes := [] } 3 "room").2.2.1 (by decide)

/-- Claim C3, counterexample: the claim asserts that every message carrying a
correlationId whose reply callback is invoked with a success value gets
exactly one response envelope.  A message carrying correlationId `0` (falsy
in JavaScript) whose callback succeeds gets none. -/
theorem callbackSend_zero_correlation_counterexample :
    callbackSend "fire" (some 0) none (.jstr "R") = none := rfl

/-- Claim C3 (amended): the reply callback invoked with an error sends
exactly one envelope `{name, data: {err}, id}` echoing the wire `id`; invoked
with a success value while the message carries a nonzero (truthy)
correlationId it sends exactly one `{name, data, id}`; with no correlationId
and no error it sends nothing. -/
theorem callbackSend_correlation (name : String) (cid : Option Nat) (e : String)
    (c : Nat) (data : JVal) (hc : c ≠ 0) :
    callbackSend name cid (some e) data = some ⟨name, .errData e, cid⟩ ∧
    callbackSend name (some c) none data = some ⟨name, .plain data, some c⟩ ∧
    callbackSend name none none data = none := by
  refine ⟨?_, ?_, ?_⟩ <;> simp [callbackSend, idTruthy, hc]

/-- Claim C3, witnessed at correlation id 7. -/
theorem callbackSend_correlation_witness :
    callbackSend "fire" (some 7) (some "bad") (.jstr "R")
      = some ⟨"fire", .errData "bad", some 7⟩ ∧
    callbackSend "fire" (some 7) none (.jstr "R")
      = some ⟨"fire", .plain (.jstr "R"), some 7⟩ ∧
    callbackSend "fire" none none (.jstr "R") = none :=
  callbackSend_correlation "fire" (some 7) "bad" 7 (.jstr "R") (by decide)

/-- Claim C5: a dispatched non-reserved message whose name has a registered
global handler fires that handler with the sender and the message data (the
reply callback is the one interpreted by `runEffect`), and nothing else
happens: no local-registry lookup, no routing-table read, no forwarding. -/
theorem globalHandler_preempts (st : PNState) (m : Msg) (user : Option Nat)
    (hres : reservedEvents.contains m.name = false)
    (hglob : st.events.contains m.name = true) :
    onMessage st m user = [.fireGlobal m.name user m.data] := by
  have hres' : m.name ∉ reservedEvents := by simpa using hres
  have hglob' : m.name ∈ st.events := by simpa using hglob
  simp [onMessage, hres', hglob']

/-- Claim C5, witnessed: a `chat` message on a process with a `chat` handler
fires only the global handler, although room 5 has a routing entry. -/
theorem globalHandler_preempts_witness :
    onMessage stGlobal msgChat (some 4) = [.fireGlobal msgChat.name (some 4) msgChat.data] :=
  globalHandler_preempts stGlobal msgChat (some 4) (by decide) (by decide)

/-- Claim C6: a message whose name is reserved (`destroy` is in the reserved
set) fails through the reply callback with the reserved-name error whatever
the session's authentication state (`user` is arbitrary, including `none`),
and nothing is dispatched: no handler fires, no lookup happens, no message is
forwarded, and exactly one error envelope goes back. -/
theorem reserved_rejected (st : PNState) (m : Msg) (user : Option Nat)
    (h : HandlerBehavior) (hres : reservedEvents.contains m.name = true) :
    reservedEvents.contains "destroy" = true ∧
    onMessage st m user = [.callbackErr ("Event " ++ m.name ++ " is reserved")] ∧
    (deliver st m user h).sent
      = [⟨m.name, .errData ("Event " ++ m.name ++ " is reserved"), m.id⟩] ∧
    (deliver st m user h).terminated = false := by
  have hmsg : onMessage st m user = [.callbackErr ("Event " ++ m.name ++ " is reserved")] := by
    have hres' : m.name ∈ reservedEvents := by simpa using hres
    simp [onMessage, hres']
  refine ⟨by decide, hmsg, ?_, ?_⟩ <;>
    simp [deliver, hmsg, runEffect, callbackSend]

/-- Claim C6, witnessed: a `destroy` message from an unauthenticated session
(`user = none`) produces only the reserved-name error reply. -/
theorem reserved_rejected_witness :
    (deliver stFwd msgDestroy none (.replies none .jnull)).sent
      = [⟨msgDestroy.name, .errData ("Event " ++ msgDestroy.name ++ " is reserved"),
          msgDestroy.id⟩] :=
  (reserved_rejected stFwd msgDestroy none (.replies none .jnull) (by decide)).2.2.1

/-- Claim C10: the `Players` registry keeps its three indexes consistent.
Immediately after `add p`, `get p.id`, `getByUserId p.user.id` and
`getByRoomId p.room.id` all return `p`, and `add` returns `p`; after `p`
subsequently fires its `destroy` event (running the handler `add`
registered), all three lookups for those keys return nothing. -/
theorem players_indexes_consistent (ps : Players) (p : Player) :
    (Players.add ps p).2 = p ∧
    Players.get (Players.add ps p).1 p.id = some p ∧
    Players.getByUserId (Players.add ps p).1 p.userId = some p ∧
    Players.getByRoomId (Players.add ps p).1 p.roomId = some p ∧
    Players.get (Players.fireDestroy (Players.add ps p).1 p) p.id = none ∧
    Players.getByUserId (Players.fireDestroy (Players.add ps p).1 p) p.userId = none ∧
    Players.getByRoomId (Players.fireDestroy (Players.add ps p).1 p) p.roomId = none := by
  refine ⟨rfl, ?_, ?_, ?_, ?_, ?_, ?_⟩
  · exact mapGet_set _ _ _
  · exact mapGet_set _ _ _
  · exact mapGet_set _ _ _
  · exact mapGet_delete _ _
  · exact mapGet_delete _ _
  · exact mapGet_delete _ _

/-- Claim C1: for a dispatched message with scope type `room` or
`networkEntity`, no registered global handler for its name and a non-reserved
name, resolution tries the local registry first (a local hit fires the target
and never reads the routing table); only on a local miss is the routing table
read (exactly one `HGET`), and then the full envelope is forwarded exactly
once to the owner it names, together with the originating process id — or,
when the table yields no owner (absent field, or a value that is falsy after
`parseInt`), the message is silently dropped: no reply, no further search. -/
theorem roomEntity_resolution (st : PNState) (m : Msg) (user : Option Nat) (sc : Scope)
    (hres : reservedEvents.contains m.name = false)
    (hglob : st.events.contains m.name = false)
    (hscope : m.scope = some sc)
    (hty : sc.type = "room" ∨ sc.type = "networkEntity") :
    ((if sc.type = "room" then st.rooms else st.networkEntities).contains sc.id = true →
      onMessage st m user =
        [.fireTarget (if sc.type = "room" then .room sc.id else .networkEntity sc.id)
          m.name user m.data]) ∧
    ((if sc.type = "room" then st.rooms else st.networkEntities).contains sc.id = false →
      (∀ owner,
        routeOwner st.redis
            (if sc.type = "room" then "_route:room" else "_route:networkEntity") sc.id
          = some owner →
        onMessage st m user =
          [.redisHGET (if sc.type = "room" then "_route:room" else "_route:networkEntity")
             sc.id,
           .serverSend "_message" m owner st.selfId]) ∧
      (routeOwner st.redis
          (if sc.type = "room" then "_route:room" else "_route:networkEntity") sc.id
        = none →
        onMessage st m user =
          [.redisHGET (if sc.type = "room" then "_route:room" else "_route:networkEntity")
             sc.id])) := by
  have hres' : m.name ∉ reservedEvents := by simpa using hres
  have hglob' : m.name ∉ st.events := by simpa using hglob
  rcases hty with h | h <;>
    refine ⟨fun hl => ?_, fun hl => ⟨fun owner ho => ?_, fun ho => ?_⟩⟩ <;>
      simp_all [onMessage, hscope]

/-- Claim C1, witnessed: on a process whose local registry misses room 5 but
whose routing table sends it to process 2, dispatch reads the table once and
forwards the envelope once, with originating process id 9. -/
theorem roomEntity_resolution_witness :
    onMessage stFwd msgRoom5 none =
      [.redisHGET "_route:room" 5, .serverSend "_message" msgRoom5 2 stFwd.selfId] := by
  have h :=
    ((roomEntity_resolution stFwd msgRoom5 none ⟨"room", 5⟩ (by decide) (by decide) rfl
        (Or.inl rfl)).2 (by decide)).1 2 (by decide)
  simpa using h

/-- Claim C4 (from the spec model of `Users.get`): a user-scoped message to a
user resident in this process fires that user locally — the effect list is
exactly the local fire, so the inter-process link is never invoked — and a
message to a user resident on another process is forwarded to that process
exactly once. -/
theorem userScope_delivery (st : PNState) (m : Msg) (user : Option Nat) (sc : Scope)
    (hres : reservedEvents.contains m.name = false)
    (hglob : st.events.contains m.name = false)
    (hscope : m.scope = some sc)
    (hty : sc.type = "user") :
    (st.users.contains sc.id = true →
      onMessage st m user = [.fireTarget (.user sc.id) m.name user m.data]) ∧
    (st.users.contains sc.id = false →
      ∀ owner, routeOwner st.redis "_route:user" sc.id = some owner →
        onMessage st m user = [.serverSend "_message" m owner st.selfId]) := by
  have hres' : m.name ∉ reservedEvents := by simpa using hres
  have hglob' : m.name ∉ st.events := by simpa using hglob
  constructor
  · intro hl
    simp_all [onMessage, hscope, hty, usersGet]
  · intro hl owner ho
    simp_all [onMessage, hscope, hty, usersGet]

/-- Claim C4, witnessed: user 8 is not resident on process 9 and is routed to
process 3, so the message is forwarded exactly once. -/
theorem userScope_delivery_witness :
    onMessage stUser msgUser8 none = [.serverSend "_message" msgUser8 3 stUser.selfId] :=
  (userScope_delivery stUser msgUser8 none ⟨"user", 8⟩ (by decide) (by decide) rfl
      rfl).2 (by decide) 3 (by decide)

/-- Claim C7, counterexample: the claim asserts a second `_authenticate` on an
already-authenticated session fails and leaves the session unchanged.  On a
session bound to user 1, the handler (no policy registered) allocates the
fresh id 2, rebinds the session to it and adds a second user to the local
registry. -/
theorem second_authenticate_counterexample :
    sessAuthed.user = some 1 ∧
    (onAuthenticate sessAuthed none .jnull policyUnused).1.user = some 2 ∧
    (onAuthenticate sessAuthed none .jnull policyUnused).1.st.users = [2, 1] := by
  refine ⟨rfl, ?_, ?_⟩ <;> rfl

/-- Claim C7 (amended): a second `_authenticate` on an authenticated session
does not fail — the handler has no already-authenticated guard.  With no
authentication policy registered it runs exactly like the first: a fresh user
id (the user counter + 1) is allocated, the session is rebound to a new User
with that id, that User is added to the local registry (the previously bound
User stays in the registry), and the connection is not closed; the session
therefore stays authenticated, but its state changes. -/
theorem second_authenticate_reauths (s : Session) (u : Nat) (authMsgId : Option Nat)
    (payload : JVal) (policy : JVal → Except String Nat)
    (hauth : s.user = some u)
    (hnopolicy : s.st.events.contains "authenticate" = false) :
    (onAuthenticate s authMsgId payload policy).1.user
      = some (countersGet s.st.redis ("_id:" ++ "user") + 1) ∧
    (onAuthenticate s authMsgId payload policy).1.st.users
      = (countersGet s.st.redis ("_id:" ++ "user") + 1) :: s.st.users ∧
    (onAuthenticate s authMsgId payload policy).2.2 = false := by
  have hnp : "authenticate" ∉ s.st.events := by simpa using hnopolicy
  simp [onAuthenticate, hnp, generateId, redisINCR, connectUser]

/-- Claim C7, witnessed: on the session authenticated as user 1 with the user
counter at 1, a second `_authenticate` rebinds the session to user 2 and
leaves user 1 in the registry next to user 2. -/
theorem second_authenticate_reauths_witness :
    (onAuthenticate sessAuthed none .jnull policyUnused).1.st.users
      = (countersGet sessAuthed.st.redis ("_id:" ++ "user") + 1) :: sessAuthed.st.users ∧
    (onAuthenticate sessAuthed none .jnull policyUnused).2.2 = false :=
  ⟨(second_authenticate_reauths sessAuthed 1 none .jnull policyUnused rfl (by decide)).2.1,
   (second_authenticate_reauths sessAuthed 1 none .jnull policyUnused rfl (by decide)).2.2⟩

/-- Claim C8, counterexample: the claim asserts an exception in a message
handler is converted into exactly one error reply envelope when the message
carried a correlationId.  A `chat` message carrying correlationId 7 whose
handler throws produces no envelope at all: the exception escapes the
dispatch path into the process-wide capture, which only logs it and fires an
`error` event. -/
theorem handler_exception_counterexample :
    msgChat.id = some 7 ∧
    deliver stGlobal msgChat (some 4) (.throws "boom")
      = { sent := [], logged := ["boom"], errorEvents := ["boom"], terminated := false } :=
  ⟨rfl, by rfl⟩

/-- Claim C8 (amended): an exception raised inside a message handler is not
caught at the dispatch boundary and never becomes a reply envelope,
correlationId or not; it is captured by the process-wide
`uncaughtException`/`unhandledRejection` handlers, logged once, re-emitted
once as an `error` event, and the process does not terminate. -/
theorem handler_exception_captured (st : PNState) (m : Msg) (user : Option Nat)
    (e : String)
    (hfire : onMessage st m user = [.fireGlobal m.name user m.data] ∨
             ∃ t, onMessage st m user = [.fireTarget t m.name user m.data]) :
    deliver st m user (.throws e)
      = { sent := [], logged := [e], errorEvents := [e], terminated := false } := by
  rcases hfire with h | ⟨t, h⟩ <;> simp [deliver, h, runEffect]

/-- Claim C8, witnessed on a handler that throws `kaput` while handling a
message with correlationId 7. -/
theorem handler_exception_captured_witness :
    deliver stGlobal msgChat (some 4) (.throws "kaput")
      = { sent := [], logged := ["kaput"], errorEvents := ["kaput"], terminated := false } :=
  handler_exception_captured stGlobal msgChat (some 4) "kaput" (Or.inl (by rfl))

/-- Claim C9: when any required setting is absent (JavaScript-falsy), `start`
throws synchronously before any network activity — the result carries the
validation error and an empty effect trace, so no redis connection is opened
and no transport listener is attached — and the thrown error names every
missing setting: the accumulated message list contains the line for each
absent one. -/
theorem start_failfast (s : Settings)
    (hmiss : strFalsy s.redisUrl = true ∨ strFalsy s.scriptsPath = true ∨
             strFalsy s.templatesPath = true ∨ s.levelProvider = none ∨
             serverInvalid s.server = true) :
    start s = (some (String.join (validateSettings s)), []) ∧
    (strFalsy s.redisUrl = true →
      "settings.redisUrl is required\n" ∈ validateSettings s) ∧
    (strFalsy s.scriptsPath = true →
      "settings.scriptsPath is required\n" ∈ validateSettings s) ∧
    (strFalsy s.templatesPath = true →
      "settings.templatesPath is required\n" ∈ validateSettings s) ∧
    (s.levelProvider = none →
      "settings.levelProvider is required\n" ∈ validateSettings s) ∧
    (serverInvalid s.server = true →
      "settings.server is required\n" ∈ validateSettings s) := by
  have hne : (validateSettings s).isEmpty = false := by
    rcases hmiss with h | h | h | h | h <;> simp [validateSettings, h]
  refine ⟨by simp [start, hne], ?_, ?_, ?_, ?_, ?_⟩ <;>
    intro h <;> simp [validateSettings, h]

/-- Claim C9, witnessed: with every setting absent, `start` throws before any
effect and the error names (among others) the redis url. -/
theorem start_failfast_witness :
    start settingsEmpty = (some (String.join (validateSettings settingsEmpty)), []) ∧
    "settings.redisUrl is required\n" ∈ validateSettings settingsEmpty :=
  ⟨(start_failfast settingsEmpty (Or.inl (by decide))).1,
   (start_failfast settingsEmpty (Or.inl (by decide))).2.1 (by decide)⟩

end PlayNetwork
